import Mathlib

/-!
# Verification of the macOS keyboard backend (`pynput/keyboard/_darwin.py`)

This development shallowly embeds the event encoder (`KeyCode._event`), the
event decoder (`Listener._event_to_key`) and the listener's event handler
(`Listener._handle`) of the macOS keyboard module, together with the static
key tables, and proves the specified properties about them.

External Quartz / AppKit constants are embedded with their numeric values;
external calls (`CGEventKeyboardGetUnicodeString`) are modelled as reads of
event fields, with OS keyboard-layout translation supplied as an explicit
parameter.
-/

set_option maxRecDepth 100000
set_option maxHeartbeats 1000000

namespace Darwin

/-! ## External constants (Quartz / hidsystem), as imported by the module -/

/-- `hidsystem/ev_keymap.h`: `NX_KEYTYPE_PLAY`. -/
def NX_KEYTYPE_PLAY : Nat := 16
/-- `hidsystem/ev_keymap.h`: `NX_KEYTYPE_MUTE`. -/
def NX_KEYTYPE_MUTE : Nat := 7
/-- `hidsystem/ev_keymap.h`: `NX_KEYTYPE_SOUND_DOWN`. -/
def NX_KEYTYPE_SOUND_DOWN : Nat := 1
/-- `hidsystem/ev_keymap.h`: `NX_KEYTYPE_SOUND_UP`. -/
def NX_KEYTYPE_SOUND_UP : Nat := 0
/-- `hidsystem/ev_keymap.h`: `NX_KEYTYPE_NEXT`. -/
def NX_KEYTYPE_NEXT : Nat := 17
/-- `hidsystem/ev_keymap.h`: `NX_KEYTYPE_PREVIOUS`. -/
def NX_KEYTYPE_PREVIOUS : Nat := 18

/-- Undocumented but widely known media-keys subtype of system-defined events. -/
def kSystemDefinedEventMediaKeysSubtype : Nat := 8

/-- Quartz `kCGEventKeyDown` (= 10). -/
def kCGEventKeyDown : Nat := 10
/-- Quartz `kCGEventKeyUp` (= 11). -/
def kCGEventKeyUp : Nat := 11
/-- Quartz `kCGEventFlagsChanged` (= 12). -/
def kCGEventFlagsChanged : Nat := 12
/-- AppKit `NSSystemDefined` event type (= 14). -/
def NSSystemDefined : Nat := 14
/-- AppKit `NSEventTypeSystemDefined` (= 14, same value as `NSSystemDefined`). -/
def NSEventTypeSystemDefined : Nat := 14
/-- AppKit `NSEventTypeFlagsChanged` (= 12). -/
def NSEventTypeFlagsChanged : Nat := 12

/-- Quartz `kCGEventFlagMaskShift` (bit 17). -/
def kCGEventFlagMaskShift : Nat := 0x20000
/-- Quartz `kCGEventFlagMaskControl` (bit 18). -/
def kCGEventFlagMaskControl : Nat := 0x40000
/-- Quartz `kCGEventFlagMaskAlternate` (bit 19). -/
def kCGEventFlagMaskAlternate : Nat := 0x80000
/-- Quartz `kCGEventFlagMaskCommand` (bit 20). -/
def kCGEventFlagMaskCommand : Nat := 0x100000
/-- Quartz `kCGEventFlagMaskSecondaryFn` (bit 23). -/
def kCGEventFlagMaskSecondaryFn : Nat := 0x800000

/-! ## The key-code value model -/

/-- The platform `KeyCode`: an optional virtual key, an optional character
(decoded unicode text can be more than one code unit, so a string), and the
darwin platform extension `_is_media` (`None`/`True` in the source, a
`Bool` here). -/
structure KeyCode where
  vk : Option Nat
  char : Option String
  is_media : Bool
deriving DecidableEq, Repr

/-- `KeyCode.from_vk(vk)`. -/
def KeyCode.from_vk (vk : Nat) : KeyCode :=
  { vk := some vk, char := none, is_media := false }

/-- `KeyCode.from_char(char, vk=vk)`. -/
def KeyCode.from_char (char : String) (vk : Option Nat) : KeyCode :=
  { vk := vk, char := some char, is_media := false }

/-- `KeyCode._from_media(vk)`: a media key from a key code. -/
def KeyCode.from_media (vk : Nat) : KeyCode :=
  { vk := some vk, char := none, is_media := true }

/-- Modelled from the spec: the key-code identity rule of the base class
(absent from `src/`): two `KeyCode`s are equal iff their virtual keys (when
present) or their characters (when present) match. -/
def keyCodeEq (a b : KeyCode) : Bool :=
  (match a.vk, b.vk with
   | some v, some w => v == w
   | _, _ => false) ||
  (match a.char, b.char with
   | some c, some d => c == d
   | _, _ => false)

/-! ## The named-key enumeration

Python's `enum.Enum` makes a member whose value compares equal to an earlier
member's value an *alias* of that earlier member.  Under the base class's
key-code equality (virtual keys match), `alt_l`, `alt_gr`, `cmd_l`, `ctrl_l`
and `shift_l` are therefore aliases of `alt`, `alt_r`, `cmd`, `ctrl` and
`shift` respectively; only canonical members appear below and in iteration
order (`for key in Key`). -/

inductive Key where
  | alt | alt_r
  | backspace | caps_lock
  | cmd | cmd_r
  | ctrl | ctrl_r
  | delete | down | end_key | enter | esc
  | f1 | f2 | f3 | f4 | f5 | f6 | f7 | f8 | f9 | f10
  | f11 | f12 | f13 | f14 | f15 | f16 | f17 | f18 | f19 | f20
  | home | left | page_down | page_up | right
  | shift | shift_r
  | space | tab | up | fn
  | media_play_pause | media_volume_mute | media_volume_down | media_volume_up
  | media_previous | media_next
deriving DecidableEq, Repr

/-- Modelled from the spec: `Key.alt_l` is an enum alias of `Key.alt`
(equal `KeyCode` values, see above). -/
def Key.alt_l : Key := Key.alt
/-- Modelled from the spec: `Key.alt_gr` is an enum alias of `Key.alt_r`. -/
def Key.alt_gr : Key := Key.alt_r
/-- Modelled from the spec: `Key.cmd_l` is an enum alias of `Key.cmd`. -/
def Key.cmd_l : Key := Key.cmd
/-- Modelled from the spec: `Key.ctrl_l` is an enum alias of `Key.ctrl`. -/
def Key.ctrl_l : Key := Key.ctrl
/-- Modelled from the spec: `Key.shift_l` is an enum alias of `Key.shift`. -/
def Key.shift_l : Key := Key.shift

/-- `key.value`: the `KeyCode` pinned to each named key (source lines 140-195). -/
def Key.value : Key → KeyCode
  | .alt => KeyCode.from_vk 0x3A
  | .alt_r => KeyCode.from_vk 0x3D
  | .backspace => KeyCode.from_vk 0x33
  | .caps_lock => KeyCode.from_vk 0x39
  | .cmd => KeyCode.from_vk 0x37
  | .cmd_r => KeyCode.from_vk 0x36
  | .ctrl => KeyCode.from_vk 0x3B
  | .ctrl_r => KeyCode.from_vk 0x3E
  | .delete => KeyCode.from_vk 0x75
  | .down => KeyCode.from_vk 0x7D
  | .end_key => KeyCode.from_vk 0x77
  | .enter => KeyCode.from_vk 0x24
  | .esc => KeyCode.from_vk 0x35
  | .f1 => KeyCode.from_vk 0x7A
  | .f2 => KeyCode.from_vk 0x78
  | .f3 => KeyCode.from_vk 0x63
  | .f4 => KeyCode.from_vk 0x76
  | .f5 => KeyCode.from_vk 0x60
  | .f6 => KeyCode.from_vk 0x61
  | .f7 => KeyCode.from_vk 0x62
  | .f8 => KeyCode.from_vk 0x64
  | .f9 => KeyCode.from_vk 0x65
  | .f10 => KeyCode.from_vk 0x6D
  | .f11 => KeyCode.from_vk 0x67
  | .f12 => KeyCode.from_vk 0x6F
  | .f13 => KeyCode.from_vk 0x69
  | .f14 => KeyCode.from_vk 0x6B
  | .f15 => KeyCode.from_vk 0x71
  | .f16 => KeyCode.from_vk 0x6A
  | .f17 => KeyCode.from_vk 0x40
  | .f18 => KeyCode.from_vk 0x4F
  | .f19 => KeyCode.from_vk 0x50
  | .f20 => KeyCode.from_vk 0x5A
  | .home => KeyCode.from_vk 0x73
  | .left => KeyCode.from_vk 0x7B
  | .page_down => KeyCode.from_vk 0x79
  | .page_up => KeyCode.from_vk 0x74
  | .right => KeyCode.from_vk 0x7C
  | .shift => KeyCode.from_vk 0x38
  | .shift_r => KeyCode.from_vk 0x3C
  | .space => { vk := some 0x31, char := some " ", is_media := false }
  | .tab => KeyCode.from_vk 0x30
  | .up => KeyCode.from_vk 0x7E
  | .fn => KeyCode.from_vk 0x3F
  | .media_play_pause => KeyCode.from_media NX_KEYTYPE_PLAY
  | .media_volume_mute => KeyCode.from_media NX_KEYTYPE_MUTE
  | .media_volume_down => KeyCode.from_media NX_KEYTYPE_SOUND_DOWN
  | .media_volume_up => KeyCode.from_media NX_KEYTYPE_SOUND_UP
  | .media_previous => KeyCode.from_media NX_KEYTYPE_PREVIOUS
  | .media_next => KeyCode.from_media NX_KEYTYPE_NEXT

/-- The canonical members of `Key` in definition (= iteration) order. -/
def Key.all : List Key :=
  [.alt, .alt_r, .backspace, .caps_lock, .cmd, .cmd_r, .ctrl, .ctrl_r,
   .delete, .down, .end_key, .enter, .esc,
   .f1, .f2, .f3, .f4, .f5, .f6, .f7, .f8, .f9, .f10,
   .f11, .f12, .f13, .f14, .f15, .f16, .f17, .f18, .f19, .f20,
   .home, .left, .page_down, .page_up, .right,
   .shift, .shift_r, .space, .tab, .up, .fn,
   .media_play_pause, .media_volume_mute, .media_volume_down,
   .media_volume_up, .media_previous, .media_next]

/-! ## Python dictionary lookup

A Python dict comprehension keeps the *last* binding of a repeated key, so a
dict built from an association list is looked up from the right. -/

/-- Lookup in an association list with Python-dict semantics (later bindings
shadow earlier ones). -/
def pyDictGet {α β : Type} [BEq α] (l : List (α × β)) (k : α) : Option β :=
  l.reverse.lookup k

/-- `Listener._SPECIAL_KEYS`: `{(key.value.vk, key.value._is_media): key for key in Key}`. -/
def SPECIAL_KEYS : List ((Option Nat × Bool) × Key) :=
  Key.all.map fun key => ((key.value.vk, key.value.is_media), key)

/-- `Listener._MODIFIER_FLAGS`: the event flag masks for the modifier keys
(alias names resolve to the canonical members, as in the source text). -/
def MODIFIER_FLAGS : List (Key × Nat) :=
  [(Key.alt, kCGEventFlagMaskAlternate),
   (Key.alt_l, kCGEventFlagMaskAlternate),
   (Key.alt_r, kCGEventFlagMaskAlternate),
   (Key.cmd, kCGEventFlagMaskCommand),
   (Key.cmd_l, kCGEventFlagMaskCommand),
   (Key.cmd_r, kCGEventFlagMaskCommand),
   (Key.ctrl, kCGEventFlagMaskControl),
   (Key.ctrl_l, kCGEventFlagMaskControl),
   (Key.ctrl_r, kCGEventFlagMaskControl),
   (Key.shift, kCGEventFlagMaskShift),
   (Key.shift_l, kCGEventFlagMaskShift),
   (Key.shift_r, kCGEventFlagMaskShift),
   (Key.fn, kCGEventFlagMaskSecondaryFn)]

/-- Modelled from the spec: the fixed virtual-key → control-symbol table
`SYMBOLS` supplied by the `darwin_vks` module, which is not under `src/`.
The spec pins `0x00 ↦ "a"`; a representative prefix of the ANSI layout is
included. -/
def SYMBOLS : List (Nat × String) :=
  [(0x00, "a"), (0x01, "s"), (0x02, "d"), (0x03, "f"), (0x04, "h"),
   (0x05, "g"), (0x06, "z"), (0x07, "x"), (0x08, "c"), (0x09, "v"),
   (0x0B, "b"), (0x0C, "q"), (0x0D, "w"), (0x0E, "e"), (0x0F, "r")]

/-! ## Native events -/

/-- The fields of a native (Quartz) event that the module reads or writes.
`keycode` is the `kCGKeyboardEventKeycode` integer field (0 when never set,
as for system-defined events built through `otherEventWithType`);
`unicodeOverride` records an explicit `CGEventKeyboardSetUnicodeString`. -/
structure CGEvent where
  type : Nat
  keycode : Nat
  flags : Nat
  subtype : Nat
  data1 : Nat
  unicodeOverride : Option String
deriving DecidableEq, Repr

/-- Modelled external call `CGEventKeyboardGetUnicodeString`: an explicitly
set unicode string is returned as such; otherwise the OS keyboard layout
translation `os` of the event is returned. -/
def CGEvent.getUnicodeString (e : CGEvent) (os : String) : String :=
  (e.unicodeOverride).getD os

/-- Python truthiness of `self.vk or mapping.get(self.char)`: a virtual key
of `None` *or `0`* falls through to the mapping lookup. -/
def pyOrVk (a : Option Nat) (b : Option Nat) : Option Nat :=
  match a with
  | some n => if n == 0 then b else some n
  | none => b

/-- The `CGEventSetFlags` argument of `KeyCode._event`: modifier masks OR'd
from the supplied modifier set, one fixed mask per checked member. -/
def encodeFlags (modifiers : List Key) : Nat :=
  0
  ||| (if modifiers.contains Key.alt then kCGEventFlagMaskAlternate else 0)
  ||| (if modifiers.contains Key.cmd then kCGEventFlagMaskCommand else 0)
  ||| (if modifiers.contains Key.ctrl then kCGEventFlagMaskControl else 0)
  ||| (if modifiers.contains Key.shift then kCGEventFlagMaskShift else 0)
  ||| (if modifiers.contains Key.fn then kCGEventFlagMaskSecondaryFn else 0)

/-! ## The encoder: `KeyCode._event(modifiers, mapping, is_pressed)`

Fallible code returns `Option`: for a media key whose `vk` is `None` the
source evaluates `None << 16`, a `TypeError`, so the result is `none` there
and `some event` everywhere else. -/

/-- `KeyCode._event`: this key as a Quartz event. -/
def KeyCode.event (self : KeyCode) (modifiers : List Key)
    (mapping : String → Option Nat) (is_pressed : Bool) : Option CGEvent :=
  let vk := pyOrVk self.vk (self.char.bind mapping)
  let base? : Option CGEvent :=
    if self.is_media then
      match self.vk with
      | none => none
      | some mvk =>
          some { type := NSSystemDefined
                 keycode := 0
                 flags := if is_pressed then 0xa00 else 0xb00
                 subtype := kSystemDefinedEventMediaKeysSubtype
                 data1 := (mvk <<< 16) ||| ((if is_pressed then 0xa else 0xb) <<< 8)
                 unicodeOverride := none }
    else
      some { type := if is_pressed then kCGEventKeyDown else kCGEventKeyUp
             keycode := vk.getD 0
             flags := 0
             subtype := 0
             data1 := 0
             unicodeOverride := none }
  base?.map fun base =>
    let flagged := { base with flags := encodeFlags modifiers }
    if vk == none && self.char != none then
      { flagged with unicodeOverride := self.char }
    else
      flagged

/-! ## Listener session state and resolved keys -/

/-- The per-listener mutable fields the handler reads and writes:
`self._flags` (last-observed modifier bitmask) and `self._is_caps_lock_on`. -/
structure ListenerState where
  flags : Nat
  is_caps_lock_on : Bool
deriving DecidableEq, Repr

/-- `Listener.__init__`: `self._flags = 0`, `self._is_caps_lock_on = False`. -/
def initialListenerState : ListenerState :=
  { flags := 0, is_caps_lock_on := false }

/-- A resolved key: either a named `Key` enum member or a plain `KeyCode`. -/
inductive RKey where
  | named : Key → RKey
  | code : KeyCode → RKey
deriving DecidableEq, Repr

/-- The `KeyCode` carried by a resolved key (`key.value` for enum members). -/
def RKey.keyCode : RKey → KeyCode
  | .named k => k.value
  | .code kc => kc

/-- Modelled from the spec: `key == Key.caps_lock` where `key` may be `None`,
a `Key` or a `KeyCode`.  Enum members compare by identity and a plain
`KeyCode` never equals an enum member (base-class semantics, absent from
`src/`). -/
def isCapsLockKey : Option RKey → Bool
  | some (.named k) => k == Key.caps_lock
  | _ => false

/-- `key in self._MODIFIER_FLAGS` / `self._MODIFIER_FLAGS[key]` combined:
the named key and its flag mask when the resolved key is a dict key.  A
`None` or plain-`KeyCode` resolved key hashes to no entry. -/
def modifierEntry : Option RKey → Option (Key × Nat)
  | some (.named k) => (pyDictGet MODIFIER_FLAGS k).map fun m => (k, m)
  | _ => none

/-! ## Printability

Python's `str.isprintable` (the `chars.isalnum()` branch is Python-2 only and
unreachable here).  Modelled external builtin, accurate on Latin-1: control
characters and the empty separator classes below are not printable, the empty
string is printable. -/

/-- Modelled external: per-character `str.isprintable`. -/
def charIsPrintable (c : Char) : Bool :=
  0x20 ≤ c.toNat && c.toNat != 0x7f && !(0x80 ≤ c.toNat && c.toNat ≤ 0xa0)

/-- Modelled external: `str.isprintable` (`True` on the empty string). -/
def strIsPrintable (s : String) : Bool :=
  s.data.all charIsPrintable

/-! ## The decoder: `Listener._event_to_key(event)` -/

/-- The caps-lock edge-detection test of `_event_to_key` (source lines
348-356): event type `NSEventTypeSystemDefined`, event-present bit (8)
unset → set, latch bit (16) set in either snapshot, and equality of the two
latch bits matching the recorded caps-lock state. -/
def capsLockCheck (st : ListenerState) (e : CGEvent) : Bool :=
  let old_8 := st.flags &&& (1 <<< 8) != 0
  let new_8 := e.flags &&& (1 <<< 8) != 0
  let old_16 := st.flags &&& (1 <<< 16) != 0
  let new_16 := e.flags &&& (1 <<< 16) != 0
  (e.type == NSEventTypeSystemDefined) && !old_8 && new_8 &&
    (old_16 || new_16) && ((old_16 == new_16) == st.is_caps_lock_on)

/-- `Listener._event_to_key`: convert a Quartz event to a key, reading the
listener's snapshot state.  `os` is the OS keyboard-layout translation
returned by `CGEventKeyboardGetUnicodeString` when no explicit unicode
string was set on the event. -/
def eventToKey (st : ListenerState) (e : CGEvent) (os : String) : RKey :=
  let vk := e.keycode
  let is_media := e.type == NSSystemDefined
  -- first hard-check if it's a caps lock release...
  if capsLockCheck st e then
    .named Key.caps_lock
  -- ...then try other special keys...
  else
    match pyDictGet SPECIAL_KEYS (some vk, is_media) with
    | some key => .named key
    | none =>
      -- ...then try characters...
      let chars := e.getUnicodeString os
      let printable := strIsPrintable chars
      if !printable && (pyDictGet SYMBOLS vk).isSome &&
          (e.flags &&& kCGEventFlagMaskControl != 0) then
        .code { vk := some vk, char := pyDictGet SYMBOLS vk, is_media := false }
      else if chars.length > 0 then
        .code (KeyCode.from_char chars (some vk))
      -- ...and fall back on a virtual key code
      else
        .code (KeyCode.from_vk vk)

/-- The decode step as the handler sees it: the docstring declares it may
raise `IndexError`, so the fallible interface is `Except`; the body of this
version never raises. -/
def eventToKeyChecked (st : ListenerState) (e : CGEvent) (os : String) :
    Except Unit RKey :=
  Except.ok (eventToKey st e os)

/-- The `try: ... except IndexError: key = None` of `Listener._handle`. -/
def catchIndexError : Except Unit RKey → Option RKey
  | .ok k => some k
  | .error _ => none

/-! ## The handler: `Listener._handle(proxy, event_type, event, refcon)` -/

/-- Everything `_handle` does on one event: its return value (`suppress`),
the press/release callback invocations in order (`true` = press), events
re-posted at the OS level, a `CGEventSetFlags` write-back to the incoming
event (suppressed modifier path), and the updated session state. -/
structure HandleResult where
  suppress : Bool
  calls : List (Bool × Option RKey)
  posted : List CGEvent
  eventFlagsWritten : Option Nat
  state : ListenerState
deriving Repr

/-- The body of `_handle` (everything before the `finally`), given the
already-caught decode result `key?`.  Callbacks return their sentinel value;
`== 2` requests suppression. -/
def handleBody (st : ListenerState) (onPress onRelease : Option RKey → Nat)
    (event_type : Nat) (e : CGEvent) (key? : Option RKey) : HandleResult :=
  if event_type == kCGEventKeyDown then
    -- a normal key press
    { suppress := onPress key? == 2, calls := [(true, key?)], posted := [],
      eventFlagsWritten := none, state := st }
  else if event_type == kCGEventKeyUp then
    -- a normal key release
    { suppress := onRelease key? == 2, calls := [(false, key?)], posted := [],
      eventFlagsWritten := none, state := st }
  else if isCapsLockKey key? then
    -- use the current flags and new flags to figure whether it's a press
    if event_type == NSEventTypeFlagsChanged then
      { suppress := onPress key? == 2, calls := [(true, key?)], posted := [],
        eventFlagsWritten := none,
        state := { st with is_caps_lock_on := e.flags &&& (1 <<< 16) != 0 } }
    else
      { suppress := onRelease key? == 2, calls := [(false, key?)], posted := [],
        eventFlagsWritten := none, state := st }
  else if event_type == NSSystemDefined then
    if e.subtype == kSystemDefinedEventMediaKeysSubtype then
      match pyDictGet SPECIAL_KEYS (some ((e.data1 &&& 0xffff0000) >>> 16), true) with
      | some k =>
          let flags16 := e.data1 &&& 0x0000ffff
          let is_press := ((flags16 &&& 0xff00) >>> 8) == 0xa
          if is_press then
            { suppress := onPress (some (.named k)) == 2,
              calls := [(true, some (.named k))], posted := [],
              eventFlagsWritten := none, state := st }
          else
            { suppress := onRelease (some (.named k)) == 2,
              calls := [(false, some (.named k))], posted := [],
              eventFlagsWritten := none, state := st }
      | none =>
          { suppress := false, calls := [], posted := [],
            eventFlagsWritten := none, state := st }
    else
      { suppress := false, calls := [], posted := [],
        eventFlagsWritten := none, state := st }
  else
    -- a modifier event, excluding caps lock
    match modifierEntry key? with
    | none =>
        -- `return False`: not ours, default tap action
        { suppress := false, calls := [], posted := [],
          eventFlagsWritten := none, state := st }
    | some (k, mask) =>
        let is_press := e.flags &&& mask != 0
        let s := (if is_press then onPress key? else onRelease key?) == 2
        if s then
          { suppress := s, calls := [(is_press, key?)], posted := [],
            eventFlagsWritten := some st.flags, state := st }
        else
          { suppress := s, calls := [(is_press, key?)],
            posted := (KeyCode.event k.value [] (fun _ => none) is_press).toList,
            eventFlagsWritten := none, state := st }

/-- `_handle` with the decode outcome supplied: the body followed by the
`finally` block, which stores the event's flag mask unless the event was
suppressed. -/
def handleCore (st : ListenerState) (onPress onRelease : Option RKey → Nat)
    (event_type : Nat) (e : CGEvent) (key? : Option RKey) : HandleResult :=
  let b := handleBody st onPress onRelease event_type e key?
  { b with state := if b.suppress then b.state else { b.state with flags := e.flags } }

/-- `Listener._handle` proper: decode (catching `IndexError`), body, `finally`. -/
def handle (st : ListenerState) (onPress onRelease : Option RKey → Nat)
    (event_type : Nat) (e : CGEvent) (os : String) : HandleResult :=
  handleCore st onPress onRelease event_type e
    (catchIndexError (eventToKeyChecked st e os))

/-! ## Common concrete instantiations used by witnesses -/

/-- A callback that never requests suppression. -/
def zeroCb : Option RKey → Nat := fun _ => 0

/-- A callback that always requests suppression (returns the sentinel 2). -/
def twoCb : Option RKey → Nat := fun _ => 2

/-- An empty character → virtual-key mapping. -/
def mapping0 : String → Option Nat := fun _ => none

/-! ## Bit-test bridging lemmas -/

/-- `x & (1 << i) != 0` is the `i`-th bit of `x`. -/
theorem land_one_shiftLeft_ne_zero (x i : Nat) :
    (x &&& (1 <<< i) != 0) = x.testBit i := by
  rw [Nat.one_shiftLeft, Nat.and_two_pow]
  cases h : x.testBit i <;> simp [h, Nat.pos_iff_ne_zero.mp (Nat.two_pow_pos i)]

/-- `x & 0x40000 != 0` is bit 18 of `x` (the control-modifier mask bit). -/
theorem land_control_mask_ne_zero (x : Nat) :
    (x &&& kCGEventFlagMaskControl != 0) = x.testBit 18 := by
  have h : kCGEventFlagMaskControl = 1 <<< 18 := by decide
  rw [h, land_one_shiftLeft_ne_zero]

/-- A string has positive length exactly when it is non-empty. -/
theorem string_length_pos_iff (s : String) : s.length > 0 ↔ s ≠ "" := by
  cases s with
  | mk d =>
      simp only [String.length]
      constructor
      · intro h he
        rw [show ("" : String) = ⟨[]⟩ from rfl] at he
        cases he
        simp at h
      · intro h
        rcases Nat.eq_zero_or_pos d.length with h0 | hp
        · exact absurd (congrArg String.mk (List.length_eq_zero.mp h0)) h
        · exact hp

/-! ## Claim C1 — resolution order of the decoder -/

/-- Spec-side statement of the caps-lock edge-detection check (claim C2 /
spec §4.2 rule 1, bit positions from §9): vendor system-defined type, the
event-present bit (8) goes unset → set, the latch bit (16) is set in either
snapshot, and the equality of old/new latch bits matches the recorded
caps-lock latch state. -/
def specCapsCheck (st : ListenerState) (e : CGEvent) : Bool :=
  (e.type == NSEventTypeSystemDefined) && !(st.flags.testBit 8) &&
    e.flags.testBit 8 && (st.flags.testBit 16 || e.flags.testBit 16) &&
    ((st.flags.testBit 16 == e.flags.testBit 16) == st.is_caps_lock_on)

/-- The source's caps-lock test agrees with the spec-side bit formulation. -/
theorem capsLockCheck_eq_spec (st : ListenerState) (e : CGEvent) :
    capsLockCheck st e = specCapsCheck st e := by
  unfold capsLockCheck specCapsCheck
  rw [land_one_shiftLeft_ne_zero, land_one_shiftLeft_ne_zero,
    land_one_shiftLeft_ne_zero, land_one_shiftLeft_ne_zero]

/-- Spec-side restatement of claim C1's four resolution rules, first match
wins: (1) caps-lock edge detection; (2) (virtual-key, is-media) lookup in
the special-key table; (3) character resolution — non-printable decoded text
with the virtual key in the control-symbol table and the control modifier
active resolves to that symbol as a character-tagged `KeyCode` carrying the
virtual key, otherwise non-empty decoded text resolves to a character-tagged
`KeyCode` carrying both the character and the virtual key; (4) fallback
`KeyCode` carrying only the virtual key. -/
def specResolve (st : ListenerState) (e : CGEvent) (os : String) : RKey :=
  if specCapsCheck st e then
    .named Key.caps_lock
  else
    match pyDictGet SPECIAL_KEYS (some e.keycode, e.type == NSSystemDefined) with
    | some key => .named key
    | none =>
      let text := e.getUnicodeString os
      if !strIsPrintable text && (pyDictGet SYMBOLS e.keycode).isSome &&
          e.flags.testBit 18 then
        .code { vk := some e.keycode, char := pyDictGet SYMBOLS e.keycode,
                is_media := false }
      else if text ≠ "" then
        .code { vk := some e.keycode, char := some text, is_media := false }
      else
        .code { vk := some e.keycode, char := none, is_media := false }

/-- C1: for every incoming native event (and every session state and OS text
translation), the decoder resolves the key by exactly the four rules of the
claim, in order, returning at the first match: caps-lock edge detection,
special-key table lookup, character resolution (control-symbol collapse,
then plain decoded text), virtual-key fallback. -/
theorem claim_C1_resolution_order (st : ListenerState) (e : CGEvent) (os : String) :
    eventToKey st e os = specResolve st e os := by
  unfold eventToKey specResolve
  rw [capsLockCheck_eq_spec]
  cases hl : pyDictGet SPECIAL_KEYS (some e.keycode, e.type == NSSystemDefined) with
  | some k => simp only [hl]
  | none =>
      simp only [hl, KeyCode.from_char, KeyCode.from_vk, land_control_mask_ne_zero,
        string_length_pos_iff]

/-! ## Claim C2 — caps-lock classification -/

/-- A flags-changed event carrying the caps-lock virtual key. -/
def c2Event : CGEvent :=
  { type := kCGEventFlagsChanged, keycode := 0x39, flags := 0, subtype := 0,
    data1 := 0, unicodeOverride := none }

/-- C2 as stated is false: the decoder also classifies an event as the
caps-lock key through the special-key table (rule 2) — here a flags-changed
event with virtual key `0x39` — although none of the four edge-detection
conditions (in particular the vendor system-defined type) holds. -/
theorem claim_C2_counterexample :
    ¬ ((eventToKey initialListenerState c2Event "" = RKey.named Key.caps_lock) ↔
        specCapsCheck initialListenerState c2Event = true) := by
  decide

/-- C2 amended: the decoder classifies an event as the caps-lock key iff the
four edge-detection conditions of the claim hold *or* the special-key-table
lookup of the event's (virtual-key, is-media) pair yields the caps-lock key
(which is the case for the pair `(0x39, not media)`). -/
theorem claim_C2_amended :
    (∀ (st : ListenerState) (e : CGEvent) (os : String),
      eventToKey st e os = RKey.named Key.caps_lock ↔
        (specCapsCheck st e = true ∨
          pyDictGet SPECIAL_KEYS (some e.keycode, e.type == NSSystemDefined) =
            some Key.caps_lock)) ∧
    pyDictGet SPECIAL_KEYS (some 0x39, false) = some Key.caps_lock := by
  constructor
  · intro st e os
    unfold eventToKey
    rw [capsLockCheck_eq_spec]
    by_cases h : specCapsCheck st e = true
    · simp [h]
    · rw [if_neg h]
      cases hl : pyDictGet SPECIAL_KEYS (some e.keycode, e.type == NSSystemDefined) with
      | some k => simp [hl, h]
      | none =>
          simp only [hl, h, false_or]
          constructor
          · intro hc
            split at hc
            · cases hc
            · split at hc <;> cases hc
          · rintro (hc | hc)
            · exact Bool.noConfusion hc
            · exact Option.noConfusion hc
  · decide

/-! ## Claim C3 — media-key payload round trip -/

/-- The media keys of the named-key table. -/
def mediaKeys : List Key := Key.all.filter fun k => k.value.is_media

/-- One media-key round trip: encoding `k` (no modifiers) must produce a
vendor system-defined event with the media subtype, the media sub-code in
bits 16 and up of the payload, the 0x0a/0x0b press/release tag in bits 8-15,
and the listener's media branch applied to that event must extract the same
key from the (sub-code, is-media) table and dispatch the same direction. -/
def mediaRoundTrip (k : Key) (pressed : Bool) : Bool :=
  match KeyCode.event k.value [] mapping0 pressed with
  | none => false
  | some e =>
      (e.type == NSSystemDefined) &&
      (e.subtype == kSystemDefinedEventMediaKeysSubtype) &&
      (some (e.data1 >>> 16) == k.value.vk) &&
      (((e.data1 >>> 8) &&& 0xff) == (if pressed then 0xa else 0xb)) &&
      (pyDictGet SPECIAL_KEYS (some ((e.data1 &&& 0xffff0000) >>> 16), true) ==
        some k) &&
      ((handle initialListenerState zeroCb zeroCb e.type e "").calls ==
        [(pressed, some (RKey.named k))])

/-- C3: every media key of the named-key table, in each direction, survives
the vendor payload round trip: the encoded payload carries the sub-code in
bits ≥ 16 and the 0x0a/0x0b tag in bits 8-15, and the listener's media-key
branch recovers the same key and direction. -/
theorem claim_C3_media_round_trip :
    ∀ k ∈ mediaKeys, ∀ (pressed : Bool), mediaRoundTrip k pressed = true := by
  decide

/-- Witness for C3 at `Key.media_volume_up`, press: additionally, the
payload's sub-code field is the NX "sound up" constant (0) and its
press/release byte is 0x0a. -/
theorem claim_C3_media_round_trip_witness :
    (Key.media_volume_up ∈ mediaKeys ∧
      mediaRoundTrip Key.media_volume_up true = true) ∧
    ((KeyCode.event Key.media_volume_up.value [] mapping0 true).map
        (fun e => (e.data1 >>> 16, (e.data1 >>> 8) &&& 0xff)) =
      some (NX_KEYTYPE_SOUND_UP, 0xa)) :=
  ⟨⟨by decide, claim_C3_media_round_trip Key.media_volume_up (by decide) true⟩,
    by decide⟩

/-! ## Claim C4 — named-key encode/decode round trip -/

/-- One named-key round trip: encode `k` with an empty modifier set, then run
the listener handler (with never-suppressing callbacks) on the resulting
synthetic event; the single dispatched press/release call must have the
requested direction, and its key's `KeyCode` must equal `k`'s under the
identity rule. -/
def namedKeyRoundTrip (k : Key) (pressed : Bool) (os : String)
    (mapping : String → Option Nat) : Bool :=
  match KeyCode.event k.value [] mapping pressed with
  | none => false
  | some e =>
      match (handle initialListenerState zeroCb zeroCb e.type e os).calls with
      | [(p, some k2)] => p == pressed && keyCodeEq k2.keyCode k.value
      | _ => false

/-- C4: for every named key of the canonical table, encoding it with an
empty modifier set and decoding the resulting synthetic event through the
listener's resolution rules yields a key equal to it under the identity rule
(virtual keys match, or characters match), for both directions and every OS
layout translation (named keys carry virtual keys, so the character mapping
is passed empty, as the handler itself does when re-posting). -/
theorem claim_C4_named_key_round_trip (pressed : Bool) (os : String) :
    ∀ k ∈ Key.all, namedKeyRoundTrip k pressed os mapping0 = true := by
  intro k hk
  fin_cases hk <;> cases pressed <;> rfl

/-- Witness for C4 at `Key.space`, press. -/
theorem claim_C4_named_key_round_trip_witness :
    Key.space ∈ Key.all ∧ namedKeyRoundTrip Key.space true "" mapping0 = true :=
  ⟨by decide, claim_C4_named_key_round_trip true "" Key.space (by decide)⟩

/-! ## Claim C5 — the snapshot-update step (`finally` block) -/

/-- The handler body (everything before `finally`) never writes the
last-observed flags snapshot. -/
theorem handleBody_flags_unchanged (st : ListenerState) (p r : Option RKey → Nat)
    (event_type : Nat) (e : CGEvent) (key? : Option RKey) :
    (handleBody st p r event_type e key?).state.flags = st.flags := by
  unfold handleBody
  repeat' split
  all_goals try rfl
  all_goals dsimp only []
  all_goals repeat' split
  all_goals rfl

/-- C5: for every handled event, if the callback requested suppression the
last-observed flags snapshot is unchanged; otherwise (including not-handled
events) it becomes the event's flags; and the update step touches no other
session field (the caps-lock latch is exactly what the body computed). -/
theorem claim_C5_snapshot_update (st : ListenerState) (p r : Option RKey → Nat)
    (event_type : Nat) (e : CGEvent) (os : String) :
    ((handle st p r event_type e os).suppress = true →
      (handle st p r event_type e os).state.flags = st.flags) ∧
    ((handle st p r event_type e os).suppress = false →
      (handle st p r event_type e os).state.flags = e.flags) ∧
    (handle st p r event_type e os).state.is_caps_lock_on =
      (handleBody st p r event_type e
        (catchIndexError (eventToKeyChecked st e os))).state.is_caps_lock_on := by
  have hflags := handleBody_flags_unchanged st p r event_type e
    (catchIndexError (eventToKeyChecked st e os))
  unfold handle handleCore
  cases hs : (handleBody st p r event_type e
      (catchIndexError (eventToKeyChecked st e os))).suppress <;>
    simp [hs, hflags]

/-- Witness for C5: a suppressing callback leaves the snapshot at its old
value; a non-suppressing one advances it to the event's flags. -/
theorem claim_C5_snapshot_update_witness :
    ((handle { flags := 5, is_caps_lock_on := false } twoCb twoCb kCGEventKeyDown
        c2Event "").suppress = true ∧
      (handle { flags := 5, is_caps_lock_on := false } twoCb twoCb kCGEventKeyDown
        c2Event "").state.flags = 5) ∧
    ((handle initialListenerState zeroCb zeroCb kCGEventKeyDown c2Event
        "").suppress = false ∧
      (handle initialListenerState zeroCb zeroCb kCGEventKeyDown c2Event
        "").state.flags = c2Event.flags) :=
  ⟨⟨by decide,
    (claim_C5_snapshot_update { flags := 5, is_caps_lock_on := false } twoCb twoCb
      kCGEventKeyDown c2Event "").1 (by decide)⟩,
   ⟨by decide,
    (claim_C5_snapshot_update initialListenerState zeroCb zeroCb
      kCGEventKeyDown c2Event "").2.1 (by decide)⟩⟩

/-! ## Claim C6 — modifier press/release classification -/

/-- In the modifier branch, the handler dispatches exactly one call whose
direction is "the modifier's mask bit is set in the event's current flags". -/
theorem handle_modifier_calls (st : ListenerState) (p r : Option RKey → Nat)
    (event_type : Nat) (e : CGEvent) (os : String) (m : Key) (mask : Nat)
    (hm : pyDictGet MODIFIER_FLAGS m = some mask)
    (hk : eventToKey st e os = RKey.named m)
    (h10 : event_type ≠ kCGEventKeyDown) (h11 : event_type ≠ kCGEventKeyUp)
    (h14 : event_type ≠ NSSystemDefined) (hcaps : m ≠ Key.caps_lock) :
    (handle st p r event_type e os).calls =
      [((e.flags &&& mask != 0), some (RKey.named m))] := by
  unfold handle handleCore handleBody
  simp only [eventToKeyChecked, catchIndexError, hk]
  rw [if_neg (by simpa using h10), if_neg (by simpa using h11),
    if_neg (by simp [isCapsLockKey, hcaps]), if_neg (by simpa using h14)]
  simp only [modifierEntry, hm, Option.map_some']
  split <;> split <;> rfl

/-- C6: for a modifier-flag-change event whose resolved key is in the
modifier table, each modifier is classified independently of the others: bit
now set and previously unset dispatches a press of that modifier; bit now
clear and previously set dispatches a release. -/
theorem claim_C6_modifier_classification (st : ListenerState)
    (p r : Option RKey → Nat) (os : String) (e : CGEvent) (m : Key) (mask : Nat)
    (hm : (m, mask) ∈ MODIFIER_FLAGS)
    (hk : eventToKey st e os = RKey.named m) :
    ((e.flags &&& mask ≠ 0 ∧ st.flags &&& mask = 0) →
      (handle st p r kCGEventFlagsChanged e os).calls =
        [(true, some (RKey.named m))]) ∧
    ((e.flags &&& mask = 0 ∧ st.flags &&& mask ≠ 0) →
      (handle st p r kCGEventFlagsChanged e os).calls =
        [(false, some (RKey.named m))]) := by
  have hpy : pyDictGet MODIFIER_FLAGS m = some mask := by
    fin_cases hm <;> rfl
  have hcaps : m ≠ Key.caps_lock := by
    fin_cases hm <;> decide
  have hcalls := handle_modifier_calls st p r kCGEventFlagsChanged e os m mask hpy
    hk (by decide) (by decide) (by decide) hcaps
  constructor
  · rintro ⟨h1, -⟩
    have hb : (e.flags &&& mask != 0) = true := bne_iff_ne.mpr h1
    rw [hcalls, hb]
  · rintro ⟨h1, -⟩
    have hb : (e.flags &&& mask != 0) = false := by simp [h1]
    rw [hcalls, hb]

/-- A flags-changed event carrying the left-option virtual key with the
alternate mask bit set. -/
def c6Event : CGEvent :=
  { type := kCGEventFlagsChanged, keycode := 0x3A, flags := kCGEventFlagMaskAlternate,
    subtype := 0, data1 := 0, unicodeOverride := none }

/-- Witness for C6: an alt flags-changed event over a zero snapshot is
dispatched as a press of alt. -/
theorem claim_C6_modifier_classification_witness :
    (Key.alt, kCGEventFlagMaskAlternate) ∈ MODIFIER_FLAGS ∧
    eventToKey initialListenerState c6Event "" = RKey.named Key.alt ∧
    (handle initialListenerState zeroCb zeroCb kCGEventFlagsChanged c6Event
      "").calls = [(true, some (RKey.named Key.alt))] :=
  ⟨by decide, by decide,
    (claim_C6_modifier_classification initialListenerState zeroCb zeroCb ""
      c6Event Key.alt kCGEventFlagMaskAlternate (by decide) (by decide)).1
      ⟨by decide, by decide⟩⟩

/-! ## Claim C7 — modifier flag encoding -/

/-- The five modifier families checked by the encoder: canonical member and
flag mask. -/
def familyMasks : List (Key × Nat) :=
  [(Key.alt, kCGEventFlagMaskAlternate), (Key.cmd, kCGEventFlagMaskCommand),
   (Key.ctrl, kCGEventFlagMaskControl), (Key.shift, kCGEventFlagMaskShift),
   (Key.fn, kCGEventFlagMaskSecondaryFn)]

/-- An encoded event always carries exactly the OR of the family masks of
the supplied modifier set. -/
theorem event_flags_eq (kc : KeyCode) (mods : List Key)
    (mapping : String → Option Nat) (pressed : Bool) (e : CGEvent)
    (he : KeyCode.event kc mods mapping pressed = some e) :
    e.flags = encodeFlags mods := by
  unfold KeyCode.event at he
  rw [Option.map_eq_some'] at he
  obtain ⟨base, -, hfb⟩ := he
  subst hfb
  split <;> rfl

/-- C7 as stated is false: an active-modifier set containing only the right
variant of a family contributes no flags at all — here `Key.alt_r` — so the
family's mask is not set on the event. -/
theorem claim_C7_counterexample :
    (KeyCode.event (KeyCode.from_vk 0x33) [Key.alt_r] mapping0 true).map
        CGEvent.flags = some 0 ∧
    kCGEventFlagMaskAlternate ≠ 0 := by
  decide

/-- C7 amended: the masks are fixed per family, and a modifier set
containing the plain variant — equivalently a left variant, which is the
same enum member by aliasing — yields an event with that family's mask set;
a set containing only a right variant yields no flags. -/
theorem claim_C7_amended :
    (∀ (kc : KeyCode) (mods : List Key) (mapping : String → Option Nat)
        (pressed : Bool) (fam : Key) (mask : Nat),
      (fam, mask) ∈ familyMasks → mods.contains fam = true →
      ∀ e, KeyCode.event kc mods mapping pressed = some e →
        e.flags &&& mask ≠ 0) ∧
    (∀ (pressed : Bool), ∀ rv ∈ [Key.alt_r, Key.cmd_r, Key.ctrl_r, Key.shift_r],
      (KeyCode.event (KeyCode.from_vk 0x33) [rv] mapping0 pressed).map
        CGEvent.flags = some 0) ∧
    (Key.alt_l = Key.alt ∧ Key.cmd_l = Key.cmd ∧ Key.ctrl_l = Key.ctrl ∧
      Key.shift_l = Key.shift) := by
  refine ⟨?_, by decide, by decide⟩
  intro kc mods mapping pressed fam mask hfam hcont e he
  rw [event_flags_eq kc mods mapping pressed e he]
  unfold encodeFlags
  fin_cases hfam <;>
    rw [hcont] <;>
    cases h1 : mods.contains Key.alt <;> cases h2 : mods.contains Key.cmd <;>
    cases h3 : mods.contains Key.ctrl <;> cases h4 : mods.contains Key.shift <;>
    cases h5 : mods.contains Key.fn <;>
    simp_all <;> decide

/-- The event encoding backspace with the left-alt (= alt) modifier held. -/
def c7Event : CGEvent :=
  { type := kCGEventKeyDown, keycode := 0x33, flags := kCGEventFlagMaskAlternate,
    subtype := 0, data1 := 0, unicodeOverride := none }

/-- Witness for C7 (amended): a set containing `Key.alt_l` sets the
alternate mask. -/
theorem claim_C7_amended_witness :
    ((Key.alt, kCGEventFlagMaskAlternate) ∈ familyMasks ∧
      [Key.alt_l].contains Key.alt = true ∧
      KeyCode.event (KeyCode.from_vk 0x33) [Key.alt_l] mapping0 true =
        some c7Event) ∧
    c7Event.flags &&& kCGEventFlagMaskAlternate ≠ 0 :=
  ⟨⟨by decide, by decide, by decide⟩,
    claim_C7_amended.1 (KeyCode.from_vk 0x33) [Key.alt_l] mapping0 true Key.alt
      kCGEventFlagMaskAlternate (by decide) (by decide) c7Event (by decide)⟩

/-! ## Claim C8 — encoding totality and degradation -/

/-- C8 as stated is false: encoding a *media* key that has no virtual key
raises (`None << 16`, a `TypeError`), modelled as `none`. -/
theorem claim_C8_counterexample :
    KeyCode.event { vk := none, char := none, is_media := true } [] mapping0 true
      = none := by
  decide

/-- C8 amended: encoding never fails for any key except a media key lacking
a virtual key; and when the key has no virtual key and the mapping misses
its character, the event uses placeholder virtual key zero and carries a
unicode override exactly the key's (possibly absent) character. -/
theorem claim_C8_amended (kc : KeyCode) (mods : List Key)
    (mapping : String → Option Nat) (pressed : Bool)
    (h : ¬(kc.is_media = true ∧ kc.vk = none)) :
    ∃ e, KeyCode.event kc mods mapping pressed = some e ∧
      ((kc.vk = none ∧ kc.char.bind mapping = none) →
        e.keycode = 0 ∧ e.unicodeOverride = kc.char) := by
  unfold KeyCode.event
  cases hm : kc.is_media with
  | true =>
      cases hvk : kc.vk with
      | none => exact absurd ⟨hm, hvk⟩ h
      | some mvk =>
          refine ⟨_, rfl, ?_⟩
          rintro ⟨h1, -⟩
          cases h1
  | false =>
      refine ⟨_, rfl, ?_⟩
      rintro ⟨h1, h2⟩
      cases hc : kc.char with
      | none => simp_all [pyOrVk]
      | some c => simp_all [pyOrVk]

/-- Witness for C8 (amended): a character-only key whose character the
mapping misses encodes to keycode 0 with the character as unicode
override. -/
theorem claim_C8_amended_witness :
    (KeyCode.event { vk := none, char := some "~", is_media := false } []
        mapping0 true).map (fun e => (e.keycode, e.unicodeOverride)) =
      some (0, some "~") := by
  obtain ⟨e, he, hc⟩ := claim_C8_amended
    { vk := none, char := some "~", is_media := false } [] mapping0 true
    (by decide)
  obtain ⟨h1, h2⟩ := hc ⟨rfl, rfl⟩
  rw [he]
  simp [h1, h2]

/-! ## Claim C9 — decode failure handling -/

/-- C9: when the decode step raises, the handler catches the failure,
substitutes a null key, dispatches the press or release callback with that
null key, and returns its suppression decision normally (the handler is a
total function of the caught decode outcome, so no exception escapes). -/
theorem claim_C9_decode_failure (st : ListenerState) (p r : Option RKey → Nat)
    (event_type : Nat) (e : CGEvent)
    (h : event_type = kCGEventKeyDown ∨ event_type = kCGEventKeyUp) :
    (handleCore st p r event_type e (catchIndexError (Except.error ()))).calls =
      [((event_type == kCGEventKeyDown), none)] ∧
    (handleCore st p r event_type e (catchIndexError (Except.error ()))).suppress =
      ((if event_type == kCGEventKeyDown then p none else r none) == 2) := by
  rcases h with h | h <;> subst h <;> exact ⟨rfl, rfl⟩

/-- Witness for C9: a key-down event with failing decode dispatches a press
of the null key. -/
theorem claim_C9_decode_failure_witness :
    (kCGEventKeyDown = kCGEventKeyDown ∨ kCGEventKeyDown = kCGEventKeyUp) ∧
    (handleCore initialListenerState zeroCb zeroCb kCGEventKeyDown c2Event
      (catchIndexError (Except.error ()))).calls = [(true, none)] :=
  ⟨Or.inl rfl, by
    have h := (claim_C9_decode_failure initialListenerState zeroCb zeroCb
      kCGEventKeyDown c2Event (Or.inl rfl)).1
    simpa using h⟩

/-! ## Claim C10 — the caps-lock latch invariant -/

/-- Resolved keys classified as the caps-lock key are exactly the named
caps-lock member. -/
theorem isCapsLockKey_iff (x : RKey) :
    isCapsLockKey (some x) = true ↔ x = RKey.named Key.caps_lock := by
  cases x with
  | named k =>
      unfold isCapsLockKey
      constructor
      · intro h
        exact congrArg RKey.named (of_decide_eq_true h)
      · intro h
        cases h
        exact decide_eq_true rfl
  | code kc =>
      unfold isCapsLockKey
      exact ⟨fun h => Bool.noConfusion h, fun h => RKey.noConfusion h⟩

/-- The handler body mutates the caps-lock latch exactly in the
caps-lock-press branch, setting it to bit 16 of the event's flags. -/
theorem handleBody_latch (st : ListenerState) (p r : Option RKey → Nat)
    (event_type : Nat) (e : CGEvent) (key? : Option RKey) :
    (handleBody st p r event_type e key?).state.is_caps_lock_on =
      (if isCapsLockKey key? = true ∧ event_type = NSEventTypeFlagsChanged ∧
          event_type ≠ kCGEventKeyDown ∧ event_type ≠ kCGEventKeyUp
       then (e.flags &&& (1 <<< 16) != 0)
       else st.is_caps_lock_on) := by
  unfold handleBody
  repeat' split
  all_goals try rfl
  all_goals dsimp only []
  all_goals repeat' split
  all_goals simp_all [kCGEventKeyDown, kCGEventKeyUp, NSEventTypeFlagsChanged,
    NSSystemDefined]

/-- The `finally` block does not touch the caps-lock latch. -/
theorem handle_latch_eq_body (st : ListenerState) (p r : Option RKey → Nat)
    (event_type : Nat) (e : CGEvent) (os : String) :
    (handle st p r event_type e os).state.is_caps_lock_on =
      (handleBody st p r event_type e
        (catchIndexError (eventToKeyChecked st e os))).state.is_caps_lock_on := by
  unfold handle handleCore
  dsimp only []
  split <;> rfl

/-- C10: the caps-lock latch starts false, and one event shape mutates it:
an event resolved to the caps-lock key whose type is the flags-changed type
(the press branch), which sets it to whether bit 16 of that event's flags is
set; every other handled event leaves it unchanged. -/
theorem claim_C10_caps_latch (st : ListenerState) (p r : Option RKey → Nat)
    (event_type : Nat) (e : CGEvent) (os : String) :
    initialListenerState.is_caps_lock_on = false ∧
    (handle st p r event_type e os).state.is_caps_lock_on =
      (if eventToKey st e os = RKey.named Key.caps_lock ∧
          event_type = NSEventTypeFlagsChanged ∧
          event_type ≠ kCGEventKeyDown ∧ event_type ≠ kCGEventKeyUp
       then (e.flags &&& (1 <<< 16) != 0)
       else st.is_caps_lock_on) := by
  refine ⟨rfl, ?_⟩
  rw [handle_latch_eq_body, handleBody_latch]
  simp only [eventToKeyChecked, catchIndexError, isCapsLockKey_iff]

end Darwin
